import Mathlib

/-!
Verification of the GLFundamentals header: a shallow embedding of its
linear-algebra types and its shader build pipeline, with theorems checking
the natural-language specification against the code.

Scalars (C++ `GLfloat`) are modelled as exact rationals `ℚ`; the external
`tan` function is an explicit function parameter where the source calls it.
-/

namespace GLF

/-- Source struct `vec3`: 3-component vector (components `v[0] v[1] v[2]`). -/
structure vec3 where
  x : ℚ
  y : ℚ
  z : ℚ
deriving DecidableEq

/-- Source struct `vec4`: 4-component vector. -/
structure vec4 where
  x : ℚ
  y : ℚ
  z : ℚ
  w : ℚ
deriving DecidableEq

/-- Row-wise 3x3 matrix, source struct `mat3` (rows `M[0] M[1] M[2]`). -/
structure mat3 where
  r0 : vec3
  r1 : vec3
  r2 : vec3
deriving DecidableEq

/-- Row-wise 4x4 matrix, source struct `mat4`. -/
structure mat4 where
  r0 : vec4
  r1 : vec4
  r2 : vec4
  r3 : vec4
deriving DecidableEq

/-- Source default constructor `vec3()`: all components set to 0. -/
def vec3_default : vec3 := ⟨0, 0, 0⟩

/-- Source default constructor `vec4()`: all components set to 0. -/
def vec4_default : vec4 := ⟨0, 0, 0, 0⟩

/-- Source default constructor `mat3()`: rows (1,0,0),(0,1,0),(0,0,1). -/
def mat3_default : mat3 := ⟨⟨1, 0, 0⟩, ⟨0, 1, 0⟩, ⟨0, 0, 1⟩⟩

/-- Source default constructor `mat4()`: the 4x4 identity rows. -/
def mat4_default : mat4 :=
  ⟨⟨1, 0, 0, 0⟩, ⟨0, 1, 0, 0⟩, ⟨0, 0, 1, 0⟩, ⟨0, 0, 0, 1⟩⟩

/-- Source `to_radians`: `degrees * 0.01745329`. -/
def to_radians (degrees : ℚ) : ℚ := degrees * 0.01745329

/-- Source `to_degrees`: `radians * 57.2957795`. -/
def to_degrees (radians : ℚ) : ℚ := radians * 57.2957795

/-- Source 4-component dot product `operator*(vec4, vec4)`. -/
def vec4_dot (a b : vec4) : ℚ := a.x * b.x + a.y * b.y + a.z * b.z + a.w * b.w

/-- Source `operator*(mat4, vec4)`: row-by-column transform of `v` by `A`. -/
def mat4_mul_vec (A : mat4) (v : vec4) : vec4 :=
  ⟨vec4_dot A.r0 v, vec4_dot A.r1 v, vec4_dot A.r2 v, vec4_dot A.r3 v⟩

/-- Source `operator*(mat3, mat3)`: row-by-column 3x3 matrix product. -/
def mat3_mul (A B : mat3) : mat3 :=
  ⟨⟨A.r0.x * B.r0.x + A.r0.y * B.r1.x + A.r0.z * B.r2.x,
    A.r0.x * B.r0.y + A.r0.y * B.r1.y + A.r0.z * B.r2.y,
    A.r0.x * B.r0.z + A.r0.y * B.r1.z + A.r0.z * B.r2.z⟩,
   ⟨A.r1.x * B.r0.x + A.r1.y * B.r1.x + A.r1.z * B.r2.x,
    A.r1.x * B.r0.y + A.r1.y * B.r1.y + A.r1.z * B.r2.y,
    A.r1.x * B.r0.z + A.r1.y * B.r1.z + A.r1.z * B.r2.z⟩,
   ⟨A.r2.x * B.r0.x + A.r2.y * B.r1.x + A.r2.z * B.r2.x,
    A.r2.x * B.r0.y + A.r2.y * B.r1.y + A.r2.z * B.r2.y,
    A.r2.x * B.r0.z + A.r2.y * B.r1.z + A.r2.z * B.r2.z⟩⟩

/-- Source `translation(v)`: identity with `v` embedded as the last column. -/
def translation (v : vec3) : mat4 :=
  ⟨⟨1, 0, 0, v.x⟩, ⟨0, 1, 0, v.y⟩, ⟨0, 0, 1, v.z⟩, ⟨0, 0, 0, 1⟩⟩

/-- Source `scale(v)`: diagonal matrix with entries `v.x, v.y, v.z, 1`. -/
def scale (v : vec3) : mat4 :=
  ⟨⟨v.x, 0, 0, 0⟩, ⟨0, v.y, 0, 0⟩, ⟨0, 0, v.z, 0⟩, ⟨0, 0, 0, 1⟩⟩

/-- Source 4-argument `perspective(v, a, n, f)`. The source calls the C
library tangent; here `tan` is an explicit function parameter standing for
that external call. `y = n * tan(v/2)`, `x = y * a`. -/
def perspective_fov (tan : ℚ → ℚ) (v a n f : ℚ) : mat4 :=
  let y := n * tan (v / 2)
  let x := y * a
  ⟨⟨n / x, 0, 0, 0⟩,
   ⟨0, n / y, 0, 0⟩,
   ⟨0, 0, (n + f) / (n - f), 2 * (n * f) / (n - f)⟩,
   ⟨0, 0, -1, 0⟩⟩

/-- Source 6-argument `perspective(l, r, b, t, n, f)`. -/
def perspective_frustum (l r b t n f : ℚ) : mat4 :=
  ⟨⟨(n + n) / (r - l), 0, (r + l) / (r - l), 0⟩,
   ⟨0, (n + n) / (t - b), (t + b) / (t - b), 0⟩,
   ⟨0, 0, (n + f) / (n - f), 2 * (n * f) / (n - f)⟩,
   ⟨0, 0, -1, 0⟩⟩

/-- Determinant of the upper-left 3x3 block of a 4x4 matrix, exactly the
expression `d` computed at the start of the source function `normal`. -/
def det3u (M : mat4) : ℚ :=
  M.r0.x * M.r1.y * M.r2.z
  - M.r0.x * M.r1.z * M.r2.y
  + M.r0.y * M.r1.z * M.r2.x
  - M.r0.y * M.r1.x * M.r2.z
  + M.r0.z * M.r1.x * M.r2.y
  - M.r0.z * M.r1.y * M.r2.x

/-- Source `normal(M)`: if `fabs(d) > 0` return the 3x3 matrix of the nine
listed products of upper-3x3 entries of `M`, else the default `mat3()`. -/
def normal (M : mat4) : mat3 :=
  let d := det3u M
  if |d| > 0 then
    ⟨⟨-M.r1.z * M.r2.y + M.r1.y * M.r2.z,
       M.r1.z * M.r2.x - M.r1.x * M.r2.z,
      -M.r1.y * M.r2.x + M.r1.x * M.r2.y⟩,
     ⟨ M.r0.z * M.r2.y - M.r0.y * M.r2.z,
      -M.r0.z * M.r2.x + M.r0.x * M.r2.z,
       M.r0.y * M.r2.x - M.r0.x * M.r2.y⟩,
     ⟨-M.r0.z * M.r1.y + M.r0.y * M.r1.z,
       M.r0.z * M.r1.x - M.r0.x * M.r1.z,
      -M.r0.y * M.r1.x + M.r0.x * M.r1.y⟩⟩
  else mat3_default

/-- The upper-left 3x3 block of a 4x4 matrix (entries `M[i][j]`, i,j < 3). -/
def upper3 (M : mat4) : mat3 :=
  ⟨⟨M.r0.x, M.r0.y, M.r0.z⟩, ⟨M.r1.x, M.r1.y, M.r1.z⟩, ⟨M.r2.x, M.r2.y, M.r2.z⟩⟩

/-- Transpose of a 3x3 matrix (spec-side helper used to state what a
transposed inverse must satisfy). -/
def transpose3 (A : mat3) : mat3 :=
  ⟨⟨A.r0.x, A.r1.x, A.r2.x⟩, ⟨A.r0.y, A.r1.y, A.r2.y⟩, ⟨A.r0.z, A.r1.z, A.r2.z⟩⟩

/-- Entry-wise division of a 3x3 matrix by a scalar (spec-side helper for
the claimed cofactor-over-determinant result). -/
def mat3_div (A : mat3) (k : ℚ) : mat3 :=
  ⟨⟨A.r0.x / k, A.r0.y / k, A.r0.z / k⟩,
   ⟨A.r1.x / k, A.r1.y / k, A.r1.z / k⟩,
   ⟨A.r2.x / k, A.r2.y / k, A.r2.z / k⟩⟩

/-! ## Shader build pipeline

The pipeline functions are embedded as pure functions of two oracles: a
file-system oracle `FS` (outcomes of `fopen`/`fseek`/`ftell`/`fread`) and a
graphics-driver oracle `Driver` (handles returned by object creation and the
status flags and info logs reported after compile/link). Each function
returns its C return value together with the ordered list of observable
events it performs (driver calls, allocations, frees, diagnostic prints).
Heap allocation (`calloc`) is modelled as always succeeding. -/

/-- Shader stage selector (`GL_VERTEX_SHADER` / `GL_FRAGMENT_SHADER`). -/
inductive Stage
  | vertex
  | fragment
deriving DecidableEq

/-- Diagnostic messages printed to the error stream, identified by their
fixed prefix from the source. -/
inductive Msg
  | failedToOpen (name : String)
  | shaderError (log : String)
  | programError (log : String)
deriving DecidableEq

/-- Observable events of the pipeline: driver calls, allocations, frees and
prints, in program order. -/
inductive Ev
  | createShaderE (st : Stage) (h : Nat)
  | shaderSourceE (h : Nat) (src : String)
  | compileShaderE (h : Nat)
  | deleteShaderE (h : Nat)
  | createProgramE (h : Nat)
  | attachShaderE (p h : Nat)
  | linkProgramE (p : Nat)
  | deleteProgramE (p : Nat)
  | allocE (size : Nat)
  | freeE
  | printE (m : Msg)
deriving DecidableEq

/-- File-system oracle: outcome of each C stdio call made by
`read_shader_source` on a given path. -/
structure FS where
  openOk : String → Bool
  seekEndOk : String → Bool
  size : String → Nat
  seekSetOk : String → Bool
  content : String → String

/-- Driver oracle: handle returned by each object-creation call and the
status/log data reported for each handle. -/
structure Driver where
  createShader : Stage → Nat
  compileStatus : Nat → Bool
  shaderLogLen : Nat → Nat
  shaderLog : Nat → String
  createProgram : Nat
  linkStatus : Nat → Bool
  programLogLen : Nat → Nat
  programLog : Nat → String

/-- Source `read_shader_source(name)`: open, seek to end, take the size,
seek back, allocate `size+1` zeroed bytes and read the file. Returns the
buffer (`none` models the C null pointer) and the event list. Only the
`fopen` failure branch prints. -/
def read_shader_source (G : FS) (name : String) : Option String × List Ev :=
  if G.openOk name then
    if G.seekEndOk name then
      if G.size name ≠ 0 then
        if G.seekSetOk name then
          (some (G.content name), [Ev.allocE (G.size name + 1)])
        else (none, [])
      else (none, [])
    else (none, [])
  else (none, [Ev.printE (Msg.failedToOpen name)])

/-- Source `report_shader_status(shader)`: query compile status and log
length; on failure allocate `n+1` bytes, fetch the log, print it with the
`Shader Error:` label, free the buffer and return false. -/
def report_shader_status (D : Driver) (shader : Nat) : Bool × List Ev :=
  let s := D.compileStatus shader
  let n := D.shaderLogLen shader
  if s then (true, [])
  else
    (false, [Ev.allocE (n + 1), Ev.printE (Msg.shaderError (D.shaderLog shader)),
             Ev.freeE])

/-- Source `report_program_status(program)`: query link status and log
length; on failure allocate `n+1` bytes, fetch the log, print it with the
`Program Error:` label, free the buffer and return false. -/
def report_program_status (D : Driver) (program : Nat) : Bool × List Ev :=
  let s := D.linkStatus program
  let n := D.programLogLen program
  if s then (true, [])
  else
    (false, [Ev.allocE (n + 1), Ev.printE (Msg.programError (D.programLog program)),
             Ev.freeE])

/-- Source `init_shader(type, source)`: create a shader object; if the
handle is nonzero, submit the source, compile, and check the status;
return the handle on success, else delete the shader and return 0. -/
def init_shader (D : Driver) (st : Stage) (source : String) : Nat × List Ev :=
  let shader := D.createShader st
  if shader ≠ 0 then
    let r := report_shader_status D shader
    if r.1 then
      (shader, [Ev.createShaderE st shader, Ev.shaderSourceE shader source,
                Ev.compileShaderE shader] ++ r.2)
    else
      (0, [Ev.createShaderE st shader, Ev.shaderSourceE shader source,
           Ev.compileShaderE shader] ++ r.2 ++ [Ev.deleteShaderE shader])
  else (0, [Ev.createShaderE st shader])

/-- Source `init_program(vert_shader, frag_shader)`: create a program
object; if the handle is nonzero, attach both shaders, link, and check the
status; return the handle on success, else delete the program and return 0. -/
def init_program_shaders (D : Driver) (vert_shader frag_shader : Nat) :
    Nat × List Ev :=
  let program := D.createProgram
  if program ≠ 0 then
    let r := report_program_status D program
    if r.1 then
      (program, [Ev.createProgramE program, Ev.attachShaderE program vert_shader,
                 Ev.attachShaderE program frag_shader, Ev.linkProgramE program] ++ r.2)
    else
      (0, [Ev.createProgramE program, Ev.attachShaderE program vert_shader,
           Ev.attachShaderE program frag_shader, Ev.linkProgramE program] ++ r.2 ++
          [Ev.deleteProgramE program])
  else (0, [Ev.createProgramE program])

/-- Source `init_program(vert_name, frag_name)`, the two-file entry point:
read both sources; if both buffers were obtained, build both shader stages,
and if both handles are nonzero link them; delete the shaders and free the
buffers; return the program handle (0 on any failure). -/
def init_program (G : FS) (D : Driver) (vert_name frag_name : String) :
    Nat × List Ev :=
  match read_shader_source G vert_name, read_shader_source G frag_name with
  | (some vert_source, ev), (some frag_source, ef) =>
    let sv := init_shader D Stage.vertex vert_source
    let sf := init_shader D Stage.fragment frag_source
    let pr := if sv.1 ≠ 0 ∧ sf.1 ≠ 0 then init_program_shaders D sv.1 sf.1
              else (0, [])
    (pr.1, ev ++ ef ++ sv.2 ++ sf.2 ++ pr.2 ++
      [Ev.deleteShaderE sf.1, Ev.deleteShaderE sv.1, Ev.freeE, Ev.freeE])
  | (_, ev), (_, ef) => (0, ev ++ ef ++ [Ev.freeE, Ev.freeE])

/-! ### Concrete oracles used by witnesses and counterexamples -/

/-- File system on which every stdio call succeeds and every file has 4
bytes of content `"srcx"`. -/
def fs0 : FS := ⟨fun _ => true, fun _ => true, fun _ => 4, fun _ => true, fun _ => "srcx"⟩

/-- File system on which no file can be opened. -/
def fsNoOpen : FS :=
  ⟨fun _ => false, fun _ => true, fun _ => 4, fun _ => true, fun _ => "srcx"⟩

/-- File system on which every file opens and seeks but is empty. -/
def fsEmpty : FS :=
  ⟨fun _ => true, fun _ => true, fun _ => 0, fun _ => true, fun _ => "srcx"⟩

/-- Driver on which everything succeeds: the vertex shader gets handle 1,
the fragment shader handle 2, the program handle 3. -/
def dr0 : Driver :=
  ⟨fun st => match st with | Stage.vertex => 1 | Stage.fragment => 2,
   fun _ => true, fun _ => 0, fun _ => "",
   3, fun _ => true, fun _ => 0, fun _ => ""⟩

/-- Driver on which shader-object creation fails (returns handle 0). -/
def drNoCreate : Driver :=
  ⟨fun _ => 0, fun _ => true, fun _ => 0, fun _ => "",
   3, fun _ => true, fun _ => 0, fun _ => ""⟩

/-- Driver on which every compilation fails with log `"bad"` of length 3. -/
def drBadCompile : Driver :=
  ⟨fun st => match st with | Stage.vertex => 1 | Stage.fragment => 2,
   fun _ => false, fun _ => 3, fun _ => "bad",
   3, fun _ => true, fun _ => 0, fun _ => ""⟩

/-- Driver on which handle 1 compiles and links fine while handle 2 fails
both with log `"bad"` of length 3. -/
def drMixed : Driver :=
  ⟨fun st => match st with | Stage.vertex => 1 | Stage.fragment => 2,
   fun h => h == 1, fun _ => 3, fun _ => "bad",
   3, fun h => h == 1, fun _ => 3, fun _ => "bad"⟩

/-! ## Theorems: algebra library claims -/

/-- A zero 4x4 matrix, used as a degenerate input. -/
def mat4_zero : mat4 :=
  ⟨⟨0, 0, 0, 0⟩, ⟨0, 0, 0, 0⟩, ⟨0, 0, 0, 0⟩, ⟨0, 0, 0, 0⟩⟩

/-- Claim C1 (code-bug evidence). At `M = scale(2,2,2)` (upper block `2I`,
determinant 8) the source `normal` returns the raw cofactor matrix `4I`:
it never divides by the determinant, so its transpose times the upper 3x3
block is `8I`, not the identity — contradicting the source doc comment and
the claim that `normal` returns the transposed inverse (cofactors scaled by
`1/determinant`). Dividing by the determinant, as the claim states, would
give the true transposed inverse, as the third conjunct shows. -/
theorem normal_missing_determinant_division :
    normal (scale ⟨2, 2, 2⟩) = ⟨⟨4, 0, 0⟩, ⟨0, 4, 0⟩, ⟨0, 0, 4⟩⟩ ∧
    mat3_mul (transpose3 (normal (scale ⟨2, 2, 2⟩))) (upper3 (scale ⟨2, 2, 2⟩)) ≠
      mat3_default ∧
    mat3_mul
        (transpose3 (mat3_div (normal (scale ⟨2, 2, 2⟩)) (det3u (scale ⟨2, 2, 2⟩))))
        (upper3 (scale ⟨2, 2, 2⟩)) = mat3_default := by
  refine ⟨?_, ?_, ?_⟩ <;>
    norm_num [mat3_mul, transpose3, mat3_div, normal, det3u, upper3, scale,
      mat3_default, mat3.mk.injEq, vec3.mk.injEq]

/-- Claim C2: the four-argument `perspective(v, a, n, f)` equals the
six-argument `perspective(l, r, b, t, n, f)` at the symmetric frustum
bounds `t = n * tan(v/2)`, `b = -t`, `r = t * a`, `l = -r`, for any value
of the external tangent function. -/
theorem perspective_fov_frustum_equiv (tan : ℚ → ℚ) (v a n f : ℚ) :
    perspective_fov tan v a n f =
      perspective_frustum (-(n * tan (v / 2) * a)) (n * tan (v / 2) * a)
        (-(n * tan (v / 2))) (n * tan (v / 2)) n f := by
  have key : ∀ c d : ℚ, (c + c) / (d + d) = c / d := by
    intro c d
    rcases eq_or_ne d 0 with h | h
    · simp [h]
    · rw [show c + c = 2 * c by ring, show d + d = 2 * d by ring]
      exact mul_div_mul_left c d two_ne_zero
  simp [perspective_fov, perspective_frustum, mat4.mk.injEq, vec4.mk.injEq, key]

/-- Claim C5: whenever the upper-left 3x3 determinant of `M` has absolute
value zero, `normal M` is the default `mat3()`, the identity matrix. -/
theorem normal_zero_det_identity (M : mat4) (h : |det3u M| = 0) :
    normal M = mat3_default := by
  simp [normal, h]

/-- Witness for C5 at the all-zeros matrix. -/
theorem normal_zero_det_identity_witness :
    |det3u mat4_zero| = 0 ∧ normal mat4_zero = mat3_default :=
  ⟨by norm_num [det3u, mat4_zero],
   normal_zero_det_identity mat4_zero (by norm_num [det3u, mat4_zero])⟩

/-- Claim C6: the default `mat4()` is the identity matrix and is a left
identity for the row-by-column matrix-vector product. -/
theorem mat4_default_product_identity :
    mat4_default = ⟨⟨1, 0, 0, 0⟩, ⟨0, 1, 0, 0⟩, ⟨0, 0, 1, 0⟩, ⟨0, 0, 0, 1⟩⟩ ∧
    ∀ v : vec4, mat4_mul_vec mat4_default v = v := by
  refine ⟨rfl, fun v => ?_⟩
  cases v
  simp [mat4_mul_vec, vec4_dot, mat4_default]

/-- Claim C8 counterexample: `to_radians` does not scale exactly by
`π/180` — at 180 degrees it returns the rational 3.1415922, which is not
`180 * (π/180) = π`, since `π` is irrational. -/
theorem to_radians_not_exact_pi_scaling :
    ¬ (((to_radians 180 : ℚ) : ℝ) = 180 * (Real.pi / 180)) := by
  intro h
  exact irrational_pi ⟨to_radians 180, by rw [h]; ring⟩

/-- Claim C8 as amended: `to_radians` and `to_degrees` scale by the fixed
rational constants 0.01745329 and 57.2957795 from the source; these
approximate `π/180` (within `10⁻⁸`) and `180/π` (within `10⁻⁴`) but the
scaling is not exactly by `π/180` or `180/π`. -/
theorem angle_conversion_is_approximate :
    (∀ d : ℚ, to_radians d = d * 0.01745329) ∧
    (∀ r : ℚ, to_degrees r = r * 57.2957795) ∧
    |((0.01745329 : ℚ) : ℝ) - Real.pi / 180| < 1 / 100000000 ∧
    |((57.2957795 : ℚ) : ℝ) - 180 / Real.pi| < 1 / 10000 := by
  refine ⟨fun d => rfl, fun r => rfl, ?_, ?_⟩
  · have hc : ((0.01745329 : ℚ) : ℝ) = 0.01745329 := by norm_num
    rw [hc, abs_sub_lt_iff]
    constructor <;> linarith [Real.pi_gt_d6, Real.pi_lt_d6]
  · have hc : ((57.2957795 : ℚ) : ℝ) = 57.2957795 := by norm_num
    have hπ : (0 : ℝ) < Real.pi := Real.pi_pos
    have h1 : (57.2957795 - 1 / 10000 : ℝ) * Real.pi < 180 := by
      nlinarith [Real.pi_lt_d6]
    have h2 : (180 : ℝ) < (57.2957795 + 1 / 10000) * Real.pi := by
      nlinarith [Real.pi_gt_d6]
    have h3 := (lt_div_iff₀ hπ).mpr h1
    have h4 := (div_lt_iff₀ hπ).mpr h2
    rw [hc, abs_sub_lt_iff]
    constructor <;> linarith

/-- Claim C9: the value of `normal M` depends only on the upper-left 3x3
block of `M`; two matrices agreeing there get the same normal matrix. -/
theorem normal_depends_only_on_upper3 (M N : mat4) (h : upper3 M = upper3 N) :
    normal M = normal N := by
  obtain ⟨⟨a00, a01, a02, a03⟩, ⟨a10, a11, a12, a13⟩,
          ⟨a20, a21, a22, a23⟩, ⟨a30, a31, a32, a33⟩⟩ := M
  obtain ⟨⟨b00, b01, b02, b03⟩, ⟨b10, b11, b12, b13⟩,
          ⟨b20, b21, b22, b23⟩, ⟨b30, b31, b32, b33⟩⟩ := N
  simp only [upper3, mat3.mk.injEq, vec3.mk.injEq] at h
  obtain ⟨⟨h1, h2, h3⟩, ⟨h4, h5, h6⟩, ⟨h7, h8, h9⟩⟩ := h
  subst h1 h2 h3 h4 h5 h6 h7 h8 h9
  rfl

/-- Witness for C9: the translation matrix by (5,7,9) and the default
matrix agree on the upper 3x3 block and get equal normal matrices. -/
theorem normal_depends_only_on_upper3_witness :
    upper3 (translation ⟨5, 7, 9⟩) = upper3 mat4_default ∧
    normal (translation ⟨5, 7, 9⟩) = normal mat4_default :=
  ⟨by simp [upper3, translation, mat4_default],
   normal_depends_only_on_upper3 _ _ (by simp [upper3, translation, mat4_default])⟩

/-- Claim C10: the default-constructed `vec3()` and `vec4()` are the zero
vectors. -/
theorem default_vectors_are_zero :
    vec3_default = ⟨0, 0, 0⟩ ∧ vec4_default = ⟨0, 0, 0, 0⟩ :=
  ⟨rfl, rfl⟩

/-! ## Theorems: shader pipeline claims -/

/-- The three possible outcomes of `read_shader_source`: open failure with
a printed diagnostic, a silent failure (seek failure or empty file), or
success with one `size+1`-byte allocation. -/
lemma read_shape (G : FS) (a : String) :
    read_shader_source G a = (none, [Ev.printE (Msg.failedToOpen a)]) ∨
    read_shader_source G a = (none, []) ∨
    read_shader_source G a = (some (G.content a), [Ev.allocE (G.size a + 1)]) := by
  unfold read_shader_source
  split
  · split
    · split
      · split
        · exact Or.inr (Or.inr rfl)
        · exact Or.inr (Or.inl rfl)
      · exact Or.inr (Or.inl rfl)
    · exact Or.inr (Or.inl rfl)
  · exact Or.inl rfl

/-- The three possible outcomes of `init_shader`: creation failure,
successful compile, or failed compile with log printed and the shader
deleted. -/
lemma init_shader_shape (D : Driver) (st : Stage) (s : String) :
    (D.createShader st = 0 ∧ init_shader D st s = (0, [Ev.createShaderE st 0])) ∨
    (D.createShader st ≠ 0 ∧ D.compileStatus (D.createShader st) = true ∧
      init_shader D st s = (D.createShader st,
        [Ev.createShaderE st (D.createShader st),
         Ev.shaderSourceE (D.createShader st) s,
         Ev.compileShaderE (D.createShader st)])) ∨
    (D.createShader st ≠ 0 ∧ D.compileStatus (D.createShader st) = false ∧
      init_shader D st s = (0,
        [Ev.createShaderE st (D.createShader st),
         Ev.shaderSourceE (D.createShader st) s,
         Ev.compileShaderE (D.createShader st),
         Ev.allocE (D.shaderLogLen (D.createShader st) + 1),
         Ev.printE (Msg.shaderError (D.shaderLog (D.createShader st))),
         Ev.freeE, Ev.deleteShaderE (D.createShader st)])) := by
  unfold init_shader report_shader_status
  rcases eq_or_ne (D.createShader st) 0 with h | h
  · simp [h]
  · cases hc : D.compileStatus (D.createShader st)
    · simp [h, hc]
    · simp [h, hc]

/-- The three possible outcomes of the handle-level `init_program`:
program-creation failure, successful link, or failed link with log printed
and the program deleted. -/
lemma init_program_shaders_shape (D : Driver) (vs fsh : Nat) :
    (D.createProgram = 0 ∧
      init_program_shaders D vs fsh = (0, [Ev.createProgramE 0])) ∨
    (D.createProgram ≠ 0 ∧ D.linkStatus D.createProgram = true ∧
      init_program_shaders D vs fsh = (D.createProgram,
        [Ev.createProgramE D.createProgram, Ev.attachShaderE D.createProgram vs,
         Ev.attachShaderE D.createProgram fsh, Ev.linkProgramE D.createProgram])) ∨
    (D.createProgram ≠ 0 ∧ D.linkStatus D.createProgram = false ∧
      init_program_shaders D vs fsh = (0,
        [Ev.createProgramE D.createProgram, Ev.attachShaderE D.createProgram vs,
         Ev.attachShaderE D.createProgram fsh, Ev.linkProgramE D.createProgram,
         Ev.allocE (D.programLogLen D.createProgram + 1),
         Ev.printE (Msg.programError (D.programLog D.createProgram)),
         Ev.freeE, Ev.deleteProgramE D.createProgram])) := by
  unfold init_program_shaders report_program_status
  rcases eq_or_ne D.createProgram 0 with h | h
  · simp [h]
  · cases hc : D.linkStatus D.createProgram
    · simp [h, hc]
    · simp [h, hc]

/-- Claim C3: in the two-file entry point, (1) if either source load
returns no buffer then no shader object is created and nothing is
compiled and the result is 0; (2) the link step — which the spec defines
as creating a program object, attaching, and requesting the link — is
entered if and only if both stages compiled to nonzero shader handles;
(3) the entry point returns a nonzero handle only when both loads, both
compiles, program creation, and the link status query all succeeded (so
any load, compile, or link failure yields handle 0). -/
theorem init_program_pipeline (G : FS) (D : Driver) (a b : String) :
    (((∃ u, (read_shader_source G a).1 = some u) ∧
      (∃ w, (read_shader_source G b).1 = some w)) ∨
     ((∀ st h, Ev.createShaderE st h ∉ (init_program G D a b).2) ∧
      (∀ h, Ev.compileShaderE h ∉ (init_program G D a b).2) ∧
      (init_program G D a b).1 = 0)) ∧
    ((∃ p, Ev.createProgramE p ∈ (init_program G D a b).2) ↔
      (∃ u w, (read_shader_source G a).1 = some u ∧
              (read_shader_source G b).1 = some w ∧
              (init_shader D Stage.vertex u).1 ≠ 0 ∧
              (init_shader D Stage.fragment w).1 ≠ 0)) ∧
    ((init_program G D a b).1 = 0 ∨
     ((∃ u w, (read_shader_source G a).1 = some u ∧
              (read_shader_source G b).1 = some w ∧
              (init_shader D Stage.vertex u).1 ≠ 0 ∧
              (init_shader D Stage.fragment w).1 ≠ 0) ∧
      D.createProgram ≠ 0 ∧ D.linkStatus D.createProgram = true ∧
      (init_program G D a b).1 = D.createProgram)) := by
  rcases read_shape G a with hra | hra | hra <;>
    rcases read_shape G b with hrb | hrb | hrb <;>
    first
    | (simp [init_program, hra, hrb]; done)
    | skip
  rcases init_shader_shape D Stage.vertex (G.content a) with
      ⟨hv0, hv⟩ | ⟨hv0, hvc, hv⟩ | ⟨hv0, hvc, hv⟩ <;>
    rcases init_shader_shape D Stage.fragment (G.content b) with
      ⟨hf0, hf⟩ | ⟨hf0, hfc, hf⟩ | ⟨hf0, hfc, hf⟩ <;>
    first
    | (simp [init_program, hra, hrb, hv, hf, hv0, hf0]; done)
    | skip
  rcases init_program_shaders_shape D (D.createShader Stage.vertex)
      (D.createShader Stage.fragment) with
    ⟨hp0, hp⟩ | ⟨hp0, hpl, hp⟩ | ⟨hp0, hpl, hp⟩
  · simp [init_program, hra, hrb, hv, hf, hv0, hf0, hp, hp0]
  · simp [init_program, hra, hrb, hv, hf, hv0, hf0, hp, hp0, hpl]
  · simp [init_program, hra, hrb, hv, hf, hv0, hf0, hp, hp0, hpl]

/-- Witness for C3: on fully-succeeding oracles the entry point returns
the program handle 3 and the link step was entered. -/
theorem init_program_pipeline_witness :
    (init_program fs0 dr0 "a.vert" "a.frag").1 = 3 ∧
    (∃ p, Ev.createProgramE p ∈ (init_program fs0 dr0 "a.vert" "a.frag").2) :=
  ⟨by decide,
   (init_program_pipeline fs0 dr0 "a.vert" "a.frag").2.1.mpr
     ⟨"srcx", "srcx", by decide, by decide, by decide, by decide⟩⟩

/-- Claim C4 counterexample: two failure paths that print nothing. A file
that opens and seeks but is empty makes `read_shader_source` return the
null buffer with no diagnostic event, and a failing `glCreateShader` makes
`init_shader` return 0 with no diagnostic event. -/
theorem silent_failure_paths :
    (read_shader_source fsEmpty "shader.vert").1 = none ∧
    (∀ m, Ev.printE m ∉ (read_shader_source fsEmpty "shader.vert").2) ∧
    (init_shader drNoCreate Stage.vertex "src").1 = 0 ∧
    (∀ m, Ev.printE m ∉ (init_shader drNoCreate Stage.vertex "src").2) := by
  refine ⟨by decide, fun m => ?_, by decide, fun m => ?_⟩ <;>
    simp [read_shader_source, init_shader, fsEmpty, drNoCreate]

/-- Claim C4 as amended: `read_shader_source` prints a diagnostic only for
the open-failure cause; its seek-failure and empty-file causes return the
null buffer silently. `init_shader` prints the shader log before returning
0 on a compile failure, but returns 0 silently when shader-object creation
itself fails. -/
theorem failure_diagnostics_amended :
    (∀ (G : FS) (n : String), G.openOk n = false →
      read_shader_source G n = (none, [Ev.printE (Msg.failedToOpen n)])) ∧
    (∀ (G : FS) (n : String), G.openOk n = true →
      (read_shader_source G n).1 = none → (read_shader_source G n).2 = []) ∧
    (∀ (D : Driver) (st : Stage) (s : String), D.createShader st = 0 →
      init_shader D st s = (0, [Ev.createShaderE st 0])) ∧
    (∀ (D : Driver) (st : Stage) (s : String), D.createShader st ≠ 0 →
      D.compileStatus (D.createShader st) = false →
      (init_shader D st s).1 = 0 ∧
      Ev.printE (Msg.shaderError (D.shaderLog (D.createShader st))) ∈
        (init_shader D st s).2) := by
  refine ⟨fun G n h => ?_, fun G n h => ?_, fun D st s h => ?_,
          fun D st s h hc => ?_⟩
  · simp [read_shader_source, h]
  · unfold read_shader_source
    simp only [h, if_true]
    split
    · split
      · split
        · intro hn
          exact absurd hn (by simp)
        · intro _
          rfl
      · intro _
        rfl
    · intro _
      rfl
  · simp [init_shader, h]
  · simp [init_shader, report_shader_status, h, hc]

/-- Witness for C4 (amended): each branch exercised on a concrete oracle. -/
theorem failure_diagnostics_amended_witness :
    read_shader_source fsNoOpen "a.vert" =
      (none, [Ev.printE (Msg.failedToOpen "a.vert")]) ∧
    (read_shader_source fsEmpty "b.vert").2 = [] ∧
    init_shader drNoCreate Stage.fragment "s" =
      (0, [Ev.createShaderE Stage.fragment 0]) ∧
    ((init_shader drBadCompile Stage.vertex "s").1 = 0 ∧
     Ev.printE (Msg.shaderError "bad") ∈ (init_shader drBadCompile Stage.vertex "s").2) :=
  ⟨failure_diagnostics_amended.1 fsNoOpen "a.vert" rfl,
   failure_diagnostics_amended.2.1 fsEmpty "b.vert" rfl (by decide),
   failure_diagnostics_amended.2.2.1 drNoCreate Stage.fragment "s" rfl,
   failure_diagnostics_amended.2.2.2 drBadCompile Stage.vertex "s" (by decide) rfl⟩

/-- Claim C7: the compile-status and link-status helpers obey the same
contract — when the queried status flag is true they return true with no
allocation and no print; when it is false they allocate `length + 1`
bytes, print the fetched log under their fixed label, free the buffer,
and return false. -/
theorem report_status_contract (D : Driver) (h : Nat) :
    (D.compileStatus h = true → report_shader_status D h = (true, [])) ∧
    (D.compileStatus h = false → report_shader_status D h =
      (false, [Ev.allocE (D.shaderLogLen h + 1),
               Ev.printE (Msg.shaderError (D.shaderLog h)), Ev.freeE])) ∧
    (D.linkStatus h = true → report_program_status D h = (true, [])) ∧
    (D.linkStatus h = false → report_program_status D h =
      (false, [Ev.allocE (D.programLogLen h + 1),
               Ev.printE (Msg.programError (D.programLog h)), Ev.freeE])) := by
  refine ⟨fun hs => ?_, fun hs => ?_, fun hs => ?_, fun hs => ?_⟩ <;>
    simp [report_shader_status, report_program_status, hs]

/-- Witness for C7: the mixed driver exercises all four branches. -/
theorem report_status_contract_witness :
    report_shader_status drMixed 1 = (true, []) ∧
    report_shader_status drMixed 2 =
      (false, [Ev.allocE 4, Ev.printE (Msg.shaderError "bad"), Ev.freeE]) ∧
    report_program_status drMixed 1 = (true, []) ∧
    report_program_status drMixed 2 =
      (false, [Ev.allocE 4, Ev.printE (Msg.programError "bad"), Ev.freeE]) :=
  ⟨(report_status_contract drMixed 1).1 rfl,
   (report_status_contract drMixed 2).2.1 rfl,
   (report_status_contract drMixed 1).2.2.1 rfl,
   (report_status_contract drMixed 2).2.2.2 rfl⟩

end GLF
